import Mathlib

/-!
Verification of the maescraper repository: four Go batch jobs that fetch
forex quotes, normalize fields, and load them incrementally into Postgres
tables, plus a cross-database sync job.  Go `time.Time` values that the
jobs compare and store are modelled by the calendar structure `DT`;
Go strings are Lean `String`s; `float64` payload values are never computed
on by any job (only carried from API to database), so they are modelled by
the carrier `F64`.
-/

namespace Maescraper

/-- Carrier for Go `float64` payload values.  No job in the repository
performs arithmetic on these values; they are decoded from JSON and passed
through to SQL parameters unchanged, so any infinite type with decidable
equality serves as the carrier. -/
abbrev F64 := Int

/-- Model of a Go `time.Time` wall-clock value, as produced by
`time.Parse` on the layouts the jobs use.  The jobs compare times with
`Before`/`After` and test `IsZero`; for normalized calendar components
those operations are the lexicographic order on the components and
equality with the zero value (January 1, year 1, midnight). -/
structure DT where
  year : Nat
  month : Nat
  day : Nat
  hour : Nat
  minute : Nat
  second : Nat
deriving DecidableEq, Repr

/-- Go's zero `time.Time`: January 1, year 1, 00:00:00. -/
def DT.zero : DT := ⟨1, 1, 1, 0, 0, 0⟩

/-- Model of Go `t.IsZero()`. -/
def DT.isZero (t : DT) : Bool := t = DT.zero

/-- Strict chronological order on wall-clock values: the lexicographic
order on (year, month, day, hour, minute, second).  This is what Go's
`Before`/`After` compute on times with normalized components. -/
def DT.ltProp (a b : DT) : Prop :=
  a.year < b.year ∨ (a.year = b.year ∧
    (a.month < b.month ∨ (a.month = b.month ∧
      (a.day < b.day ∨ (a.day = b.day ∧
        (a.hour < b.hour ∨ (a.hour = b.hour ∧
          (a.minute < b.minute ∨ (a.minute = b.minute ∧
            a.second < b.second)))))))))

instance (a b : DT) : Decidable (DT.ltProp a b) := by
  unfold DT.ltProp; infer_instance

/-- Model of Go `a.Before(b)`. -/
def DT.before (a b : DT) : Bool := DT.ltProp a b

/-- Model of Go `a.After(b)`. -/
def DT.after (a b : DT) : Bool := DT.ltProp b a

/-- Value of a decimal digit character, `none` for a non-digit. -/
def digitVal (c : Char) : Option Nat :=
  if c.isDigit then some (c.toNat - 48) else none

/-- Go's leap-year rule (`isLeap` in the `time` package). -/
def isLeap (y : Nat) : Bool :=
  (y % 4 == 0 && y % 100 != 0) || y % 400 == 0

/-- Number of days in a month, as validated by Go `time.Parse`. -/
def daysIn (month year : Nat) : Nat :=
  if month = 2 then (if isLeap year then 29 else 28)
  else if month = 4 ∨ month = 6 ∨ month = 9 ∨ month = 11 then 30
  else 31

/-- Range validation performed by Go `time.Parse` on the extracted
components: month 1..12, day 1..daysIn, hour 0..23, minute and second
0..59. -/
def mkValidDT (y mo d h mi s : Nat) : Option DT :=
  if 1 ≤ mo ∧ mo ≤ 12 ∧ 1 ≤ d ∧ d ≤ daysIn mo y ∧ h ≤ 23 ∧ mi ≤ 59 ∧ s ≤ 59 then
    some ⟨y, mo, d, h, mi, s⟩
  else none

/-- Model of Go `time.Parse("2006-01-02T15:04:05", s)`: a fixed-width
19-character timestamp with literal separators, digits in every numeric
position, and range-checked components. -/
def parseDT19 (s : String) : Option DT :=
  match s.toList with
  | [y1, y2, y3, y4, c1, m1, m2, c2, d1, d2, c3, h1, h2, c4, n1, n2, c5, s1, s2] =>
    if c1 = '-' ∧ c2 = '-' ∧ c3 = 'T' ∧ c4 = ':' ∧ c5 = ':' then
      match digitVal y1, digitVal y2, digitVal y3, digitVal y4,
            digitVal m1, digitVal m2, digitVal d1, digitVal d2,
            digitVal h1, digitVal h2, digitVal n1, digitVal n2,
            digitVal s1, digitVal s2 with
      | some a, some b, some c, some d, some e, some f, some g, some h,
        some i, some j, some k, some l, some m, some n =>
          mkValidDT (a * 1000 + b * 100 + c * 10 + d) (e * 10 + f) (g * 10 + h)
            (i * 10 + j) (k * 10 + l) (m * 10 + n)
      | _, _, _, _, _, _, _, _, _, _, _, _, _, _ => none
    else none
  | _ => none

/-- Model of Go `time.Parse("2006-01-02", s)`: a fixed-width 10-character
date; the unparsed clock components are zero. -/
def parseDate10 (s : String) : Option DT :=
  match s.toList with
  | [y1, y2, y3, y4, c1, m1, m2, c2, d1, d2] =>
    if c1 = '-' ∧ c2 = '-' then
      match digitVal y1, digitVal y2, digitVal y3, digitVal y4,
            digitVal m1, digitVal m2, digitVal d1, digitVal d2 with
      | some a, some b, some c, some d, some e, some f, some g, some h =>
          mkValidDT (a * 1000 + b * 100 + c * 10 + d) (e * 10 + f) (g * 10 + h) 0 0 0
      | _, _, _, _, _, _, _, _ => none
    else none
  | _ => none

/-- Model of Go `time.Parse("060102", s)`: a six-digit year/month/day
stamp; Go maps a two-digit year of 69..99 to 19xx and 00..68 to 20xx. -/
def parseYYMMDD (s : String) : Option DT :=
  match s.toList with
  | [y1, y2, m1, m2, d1, d2] =>
    match digitVal y1, digitVal y2, digitVal m1, digitVal m2,
          digitVal d1, digitVal d2 with
    | some a, some b, some e, some f, some g, some h =>
        let yy := a * 10 + b
        let year := if 69 ≤ yy then 1900 + yy else 2000 + yy
        mkValidDT year (e * 10 + f) (g * 10 + h) 0 0 0
    | _, _, _, _, _, _ => none
  | _ => none

/-- Accumulates the value of a decimal digit run, failing on any
non-digit character. -/
def digitsValAux : List Char → Nat → Option Nat
  | [], acc => some acc
  | c :: rest, acc =>
    match digitVal c with
    | some d => digitsValAux rest (acc * 10 + d)
    | none => none

/-- Largest Go `int` (64-bit) value. -/
def int64Max : Int := 9223372036854775807

/-- Smallest Go `int` (64-bit) value. -/
def int64Min : Int := -9223372036854775808

/-- Model of Go `strconv.Atoi`: an optional sign followed by at least one
decimal digit, with the result required to fit in a 64-bit `int`. -/
def atoiOpt (s : String) : Option Int :=
  let fit : Int → Option Int := fun n =>
    if int64Min ≤ n ∧ n ≤ int64Max then some n else none
  match s.toList with
  | [] => none
  | '+' :: rest =>
    match rest with
    | [] => none
    | _ => (digitsValAux rest 0).bind (fun n => fit (Int.ofNat n))
  | '-' :: rest =>
    match rest with
    | [] => none
    | _ => (digitsValAux rest 0).bind (fun n => fit (-(Int.ofNat n)))
  | cs => (digitsValAux cs 0).bind (fun n => fit (Int.ofNat n))

/-- Model of Go `strings.TrimSuffix(s, suffix)`: when `suffix` is a
suffix of `s` the result is `s` without its last `len(suffix)`
characters, otherwise `s` unchanged. -/
def strTrimSuffix (s suffix : String) : String :=
  if suffix.data.isSuffixOf s.data then
    ⟨s.data.take (s.data.length - suffix.data.length)⟩
  else s

/-- Source `deriveCurrencyOut`: strip a trailing `"$T"` from the ticker. -/
def deriveCurrencyOut (ticker : String) : String :=
  strTrimSuffix ticker "$T"

/-- Source `deriveCurrencyIn`: the `moneda` code with `"T"` mapped to
`"ART"`, all other codes passed through. -/
def deriveCurrencyIn (moneda : String) : String :=
  if moneda = "T" then "ART" else moneda

/-- Source `deriveRueda`: the `segmento` field with `"Minorista"` mapped
to `"CAM2"` and `"Mayorista"` to `"CAM1"`, all other values passed
through. -/
def deriveRueda (segmento : String) : String :=
  if segmento = "Minorista" then "CAM2"
  else if segmento = "Mayorista" then "CAM1"
  else segmento

/-- Source `buildInstrumento`: `fmt.Sprintf("%s / %s %s", ...)` over the
derived currency codes and the raw settlement-term string. -/
def buildInstrumento (currencyOut currencyIn plazo : String) : String :=
  currencyOut ++ " / " ++ currencyIn ++ " " ++ plazo

/-- Source `ForexData` struct decoded from the current-quotes API (flat
array shape).  Go `int` fields are `Int`, `float64` fields are `F64`. -/
structure ForexData where
  fecha : String
  ticker : String
  descripcion : String
  tipoEmision : String
  segmento : String
  codigoSegmento : String
  plazo : String
  codigoPlazo : String
  moneda : String
  fechaLiquidacion : String
  volumenAcumulado : Int
  montoAcumulado : F64
  precioUltimo : F64
  ultimaTasa : F64
  precioCierreAnterior : F64
  precioMinimo : F64
  precioMaximo : F64
  openInterest : Int
  precioCierre : F64
  variacion : F64
deriving DecidableEq, Repr

/-- Source `ForexDetail` struct: one record inside a date group of the
history endpoint's response. -/
structure ForexDetail where
  fecha : String
  ticker : String
  descripcion : String
  moneda : String
  plazo : String
  codigoPlazo : String
  segmento : String
  codigoSegmento : String
  volumen : F64
  monto : F64
  minimo : F64
  maximo : F64
  ultimo : F64
  variacion : F64
  tipoEmision : String
  precioCierre : F64
  fechaLiquidacion : String
  ultimaTasa : F64
  cierreAnterior : F64
  openInterest : Int
deriving DecidableEq, Repr

/-- Source `HistoricoResponse`: one date group of the history endpoint. -/
structure HistoricoResponse where
  fecha : String
  volumen : F64
  details : List ForexDetail
deriving DecidableEq, Repr

/-- One row of the 23-column `public.forex` table, in the column order of
the INSERT statements.  Nullable columns are `Option`s; the `date` column
is NOT NULL in every code path (a parsed `time.Time` is always passed). -/
structure Row where
  date : DT
  rueda : Option String
  instrumento : Option String
  currency_out : Option String
  currency_in : Option String
  settle : Option Int
  settle_date : Option DT
  monto : Option F64
  cotizacion : Option F64
  hora : Option String
  descripcion : Option String
  tipo_emision : Option String
  codigo_segmento : Option String
  codigo_plazo : Option String
  moneda : Option String
  monto_acumulado : Option F64
  precio_ultimo : Option F64
  ultima_tasa : Option F64
  precio_cierre_anterior : Option F64
  precio_minimo : Option F64
  precio_maximo : Option F64
  open_interest : Option Int
  variacion : Option F64
deriving DecidableEq, Repr

/-- Settle value derivation shared by the current-quotes and history
loaders: `if d.Plazo != "" { s, err := strconv.Atoi(d.Plazo); if err ==
nil { settleVal = &s } }` — absent when the term is empty or fails to
parse. -/
def settleValOf (plazo : String) : Option Int :=
  if plazo ≠ "" then atoiOpt plazo else none

/-- Settle-date derivation shared by the current-quotes and history
loaders: the empty string and the sentinel `"0001-01-01T00:00:00"` yield
an absent value, as does a parse failure; otherwise the parsed date. -/
def settleDateValOf (fechaLiquidacion : String) : Option DT :=
  if fechaLiquidacion ≠ "" ∧ fechaLiquidacion ≠ "0001-01-01T00:00:00" then
    parseDT19 fechaLiquidacion
  else none

/-- Row built by the current-quotes loader (`saveToDatabase`) for a
record whose `fecha` parsed to `fecha`, in the order of the `conn.Exec`
arguments of the source. -/
def mkRow (fecha : DT) (d : ForexData) : Row :=
  let currencyOut := deriveCurrencyOut d.ticker
  let currencyIn := deriveCurrencyIn d.moneda
  { date := fecha
    rueda := some (deriveRueda d.segmento)
    instrumento := some (buildInstrumento currencyOut currencyIn d.plazo)
    currency_out := some currencyOut
    currency_in := some currencyIn
    settle := settleValOf d.plazo
    settle_date := settleDateValOf d.fechaLiquidacion
    monto := some d.volumenAcumulado
    cotizacion := some d.precioCierre
    hora := none
    descripcion := some d.descripcion
    tipo_emision := some d.tipoEmision
    codigo_segmento := some d.codigoSegmento
    codigo_plazo := some d.codigoPlazo
    moneda := some d.moneda
    monto_acumulado := some d.montoAcumulado
    precio_ultimo := some d.precioUltimo
    ultima_tasa := some d.ultimaTasa
    precio_cierre_anterior := some d.precioCierreAnterior
    precio_minimo := some d.precioMinimo
    precio_maximo := some d.precioMaximo
    open_interest := some d.openInterest
    variacion := some d.variacion }

/-- Row built by the backfill loader (`insertData`) for a detail record
whose `fecha` parsed to `fecha`, in the order of the `conn.Exec`
arguments of the source (`volumen` feeds `monto`, `precioCierre` feeds
`cotizacion`, `monto` feeds `monto_acumulado`). -/
def mkHistRow (fecha : DT) (d : ForexDetail) : Row :=
  let currencyOut := deriveCurrencyOut d.ticker
  let currencyIn := deriveCurrencyIn d.moneda
  { date := fecha
    rueda := some (deriveRueda d.segmento)
    instrumento := some (buildInstrumento currencyOut currencyIn d.plazo)
    currency_out := some currencyOut
    currency_in := some currencyIn
    settle := settleValOf d.plazo
    settle_date := settleDateValOf d.fechaLiquidacion
    monto := some d.volumen
    cotizacion := some d.precioCierre
    hora := none
    descripcion := some d.descripcion
    tipo_emision := some d.tipoEmision
    codigo_segmento := some d.codigoSegmento
    codigo_plazo := some d.codigoPlazo
    moneda := some d.moneda
    monto_acumulado := some d.monto
    precio_ultimo := some d.ultimo
    ultima_tasa := some d.ultimaTasa
    precio_cierre_anterior := some d.cierreAnterior
    precio_minimo := some d.minimo
    precio_maximo := some d.maximo
    open_interest := some d.openInterest
    variacion := some d.variacion }

/-- Loop body of the current-quotes `saveToDatabase`: for each record,
parse `fecha` (dropping the record on failure), skip it — incrementing
the skipped counter — when the cutoff is nonzero and the date is not
strictly after it, and otherwise insert the built row.  Returns the
inserted rows in order and the skipped count; the source's
`successfulInserts` counter is the length of the inserted list. -/
def saveLoop (lastDate : DT) : List ForexData → List Row × Nat
  | [] => ([], 0)
  | d :: rest =>
    match parseDT19 d.fecha with
    | none => saveLoop lastDate rest
    | some fecha =>
      if !lastDate.isZero && !(fecha.after lastDate) then
        let r := saveLoop lastDate rest
        (r.1, r.2 + 1)
      else
        let r := saveLoop lastDate rest
        (mkRow fecha d :: r.1, r.2)

/-- Qualification predicate of the incremental load, in the spec's
terms: the record's date parses and is strictly greater than the cutoff,
every parseable record qualifying when the cutoff is absent (zero). -/
def qualifies (lastDate : DT) (d : ForexData) : Bool :=
  match parseDT19 d.fecha with
  | none => false
  | some fecha => lastDate.isZero || lastDate.before fecha

/-- The row the loader would build for a record, absent when the
record's date does not parse. -/
def rowOf (d : ForexData) : Option Row :=
  (parseDT19 d.fecha).map (fun fecha => mkRow fecha d)

/-- Loop body of the backfill `insertData` over one day's detail list:
parse each detail's `fecha` (dropping the detail on failure) and insert
the built row; there is no cutoff comparison anywhere in this loop. -/
def insertLoop : List ForexDetail → List Row
  | [] => []
  | d :: rest =>
    match parseDT19 d.fecha with
    | none => insertLoop rest
    | some fecha => mkHistRow fecha d :: insertLoop rest

/-- Source `insertData`: iterate over the day groups and insert every
detail record whose date parses; `inserted` is the length of the result. -/
def insertData : List HistoricoResponse → List Row
  | [] => []
  | day :: rest => insertLoop day.details ++ insertData rest

/-- The row the backfill loader would build for a detail record, absent
when the record's date does not parse. -/
def histRowOf (d : ForexDetail) : Option Row :=
  (parseDT19 d.fecha).map (fun fecha => mkHistRow fecha d)

/-- One row of the dataframe the legacy scraper builds before loading:
the `date` column is a formatted string (empty on an invalid raw date),
and the four regex-extracted columns are absent when the `Titulo` regex
did not match (the Go type assertion `.(string)` then fails). -/
structure LegacyIn where
  date : String
  rueda : String
  instrumento : String
  currency_out : Option String
  currency_in : Option String
  settle : Option String
  settle_date : Option String
  monto : F64
  cotizacion : F64
  hora : String
deriving DecidableEq, Repr

/-- One row of the 10-column `public.forex3` table, in the order of the
legacy INSERT statement. -/
structure LegacyRow where
  date : DT
  rueda : String
  instrumento : String
  currency_out : Option String
  currency_in : Option String
  settle : Option Int
  settle_date : Option DT
  monto : F64
  cotizacion : F64
  hora : String
deriving DecidableEq, Repr

/-- Legacy settle handling: the column value must be a string (the type
assertion succeeds), be nonempty, and parse as an integer; otherwise the
stored value is absent. -/
def legacySettleVal (settle : Option String) : Option Int :=
  match settle with
  | some s => if s ≠ "" then atoiOpt s else none
  | none => none

/-- Legacy settle-date handling: a present nonempty column value is
parsed with the `"060102"` layout, a parse failure yielding an absent
value. -/
def legacySettleDateVal (settleDate : Option String) : Option DT :=
  match settleDate with
  | some s => if s ≠ "" then parseYYMMDD s else none
  | none => none

/-- Row built by the legacy loader for a record whose date column parsed
to `date`. -/
def mkLegacyRow (date : DT) (d : LegacyIn) : LegacyRow :=
  { date := date
    rueda := d.rueda
    instrumento := d.instrumento
    currency_out := d.currency_out
    currency_in := d.currency_in
    settle := legacySettleVal d.settle
    settle_date := legacySettleDateVal d.settle_date
    monto := d.monto
    cotizacion := d.cotizacion
    hora := d.hora }

/-- Loop body of the legacy `saveToDatabase`: parse the `date` column
(skipping the record on failure) and collect the row when the cutoff is
zero or the date is strictly after it. -/
def legacyLoop (lastDate : DT) : List LegacyIn → List LegacyRow
  | [] => []
  | d :: rest =>
    match parseDate10 d.date with
    | none => legacyLoop lastDate rest
    | some date =>
      if lastDate.isZero || date.after lastDate then
        mkLegacyRow date d :: legacyLoop lastDate rest
      else
        legacyLoop lastDate rest

/-- Qualification predicate of the legacy incremental load. -/
def legacyQualifies (lastDate : DT) (d : LegacyIn) : Bool :=
  match parseDate10 d.date with
  | none => false
  | some date => lastDate.isZero || lastDate.before date

/-- The row the legacy loader would build for a record, absent when the
date column does not parse. -/
def legacyRowOf (d : LegacyIn) : Option LegacyRow :=
  (parseDate10 d.date).map (fun date => mkLegacyRow date d)

/-- Model of Go `t.AddDate(0, 0, 1)` on a calendar-valid time: the next
calendar day, rolling over month and year boundaries, with the clock
components preserved. -/
def addOneDay (t : DT) : DT :=
  if t.day < daysIn t.month t.year then { t with day := t.day + 1 }
  else if t.month < 12 then { t with month := t.month + 1, day := 1 }
  else { t with year := t.year + 1, month := 1, day := 1 }

/-- Sentinel date the sync and backfill jobs coalesce an empty table's
`MAX(date)` to. -/
def epoch1900 : DT := ⟨1900, 1, 1, 0, 0, 0⟩

/-- Source `getLastDate` of the backfill job: the result of
`SELECT COALESCE(MAX(date), '1900-01-01')`, or the zero time when the
query itself fails (`none`). -/
def getLastDate (queryResult : Option DT) : DT :=
  match queryResult with
  | none => DT.zero
  | some d => d

/-- Backfill date-range planner (lines 506-519 of the backfill `main`):
`none` models the early "nothing to do" return taken when the last
stored date is present (nonzero) and not before today; otherwise the
fetched range is `[lastDate + 1 day, today]`, with `from = today` when
the last stored date is absent (zero). -/
def planBackfill (lastDate today : DT) : Option (DT × DT) :=
  if !lastDate.isZero && !(lastDate.before today) then none
  else
    some ((if lastDate.isZero then today else addOneDay lastDate), today)

/-- Number of calls the backfill `main` makes to `fetchHistoricoForex`:
zero on the early "nothing to do" return, exactly one otherwise. -/
def backfillFetchCalls (lastDate today : DT) : Nat :=
  match planBackfill lastDate today with
  | none => 0
  | some _ => 1

/-- SQL `MAX(date)` over a table's rows coalesced with `'1900-01-01'`,
as both the sync job and the backfill job compute their cutoff. -/
def maxDateOr1900 (rows : List Row) : DT :=
  rows.foldl (fun acc r => if acc.before r.date then r.date else acc) epoch1900

/-- Non-strict date order on table rows, the `ORDER BY date` order of
the sync job's SELECT. -/
def rowLe (a b : Row) : Prop := ¬ DT.ltProp b.date a.date

instance : DecidableRel rowLe := fun a b => by
  unfold rowLe; infer_instance

instance : IsTotal Row rowLe where
  total a b := by
    unfold rowLe DT.ltProp
    omega

instance : IsTrans Row rowLe where
  trans a b c hab hbc := by
    unfold rowLe DT.ltProp at *
    omega

/-- The sync job's SELECT: all source rows with `date > cutoff`, in
ascending date order. -/
def selectNewRows (src : List Row) (cutoff : DT) : List Row :=
  List.insertionSort rowLe (src.filter (fun r => cutoff.before r.date))

/-- The per-row copy the sync job performs: `rows.Scan` reads the 23
column values into variables and `conn.Exec` passes the same variables
to the 23 INSERT parameters in the same column order. -/
def copyRow (r : Row) : Row :=
  { date := r.date
    rueda := r.rueda
    instrumento := r.instrumento
    currency_out := r.currency_out
    currency_in := r.currency_in
    settle := r.settle
    settle_date := r.settle_date
    monto := r.monto
    cotizacion := r.cotizacion
    hora := r.hora
    descripcion := r.descripcion
    tipo_emision := r.tipo_emision
    codigo_segmento := r.codigo_segmento
    codigo_plazo := r.codigo_plazo
    moneda := r.moneda
    monto_acumulado := r.monto_acumulado
    precio_ultimo := r.precio_ultimo
    ultima_tasa := r.ultima_tasa
    precio_cierre_anterior := r.precio_cierre_anterior
    precio_minimo := r.precio_minimo
    precio_maximo := r.precio_maximo
    open_interest := r.open_interest
    variacion := r.variacion }

/-- The sync job end to end: read the destination's coalesced maximum
date, select the strictly newer source rows in ascending date order, and
append each, copied column for column, to the destination table. -/
def syncRun (src dst : List Row) : List Row :=
  dst ++ (selectNewRows src (maxDateOr1900 dst)).map copyRow

/-- Connection events of the sync job's two database connections. -/
inductive ConnEv where
  | openLocal
  | closeLocal
  | openCloud
  | closeCloud
deriving DecidableEq, Repr

/-- Trace of one run of the sync job: the connection events in order and
whether the run ended through `log.Fatalf` (which calls `os.Exit` and
therefore does not run deferred calls). -/
structure SyncTrace where
  events : List ConnEv
  fatal : Bool
deriving DecidableEq, Repr

/-- Control-flow model of the sync job's `main`, one Boolean per
fallible step in program order: connect local (fatal on failure, before
any connection exists), connect cloud (fatal on failure — the deferred
close of the already-open local connection does not run), query the
cloud's max date (fatal), query the local source rows (fatal), prepare
the insert (fatal).  On normal completion the deferred closes run in
last-in-first-out order. -/
def syncMainTrace (localOk cloudOk queryCloudOk queryLocalOk prepOk : Bool) :
    SyncTrace :=
  if !localOk then ⟨[], true⟩
  else if !cloudOk then ⟨[.openLocal], true⟩
  else if !queryCloudOk then ⟨[.openLocal, .openCloud], true⟩
  else if !queryLocalOk then ⟨[.openLocal, .openCloud], true⟩
  else if !prepOk then ⟨[.openLocal, .openCloud], true⟩
  else ⟨[.openLocal, .openCloud, .closeCloud, .closeLocal], false⟩

/-- A trace releases every opened connection when each open event has a
matching close event. -/
def allReleased (events : List ConnEv) : Bool :=
  (events.count .openLocal == events.count .closeLocal) &&
    (events.count .openCloud == events.count .closeCloud)

/-- Single-connection events of the current-quotes loader. -/
inductive SaveEv where
  | openDB
  | closeDB
deriving DecidableEq, Repr

/-- Control-flow model of the current-quotes `saveToDatabase` resource
handling: a connect failure is fatal before any connection exists; a
prepare failure takes the early `return`, on which the deferred
`conn.Close` does run; the normal path closes on return as well.  The
pair carries the events and the fatal flag. -/
def saveToDatabaseTrace (connectOk prepOk : Bool) : List SaveEv × Bool :=
  if !connectOk then ([], true)
  else if !prepOk then ([.openDB, .closeDB], false)
  else ([.openDB, .closeDB], false)

/-- A single-connection trace releases its connection when open and
close events balance. -/
def saveReleased (events : List SaveEv) : Bool :=
  events.count .openDB == events.count .closeDB

/-! Helper lemmas relating the loader loops to their filter
characterizations.  They are shared by the proofs below. -/

theorem saveLoop_fst_eq (lastDate : DT) (data : List ForexData) :
    (saveLoop lastDate data).1 = (data.filter (qualifies lastDate)).filterMap rowOf := by
  induction data with
  | nil => rfl
  | cons d rest ih =>
    cases hp : parseDT19 d.fecha with
    | none =>
      simp [saveLoop, hp, qualifies, ih]
    | some fecha =>
      by_cases hz : lastDate.isZero = true
      · simp [saveLoop, hp, hz, qualifies, rowOf, ih]
      · rw [Bool.not_eq_true] at hz
        by_cases hb : DT.ltProp lastDate fecha
        · simp [saveLoop, hp, hz, hb, qualifies, DT.after, DT.before, rowOf, ih]
        · simp [saveLoop, hp, hz, hb, qualifies, DT.after, DT.before, rowOf, ih]

theorem saveLoop_zero_fst (data : List ForexData) :
    (saveLoop DT.zero data).1 = data.filterMap rowOf := by
  induction data with
  | nil => rfl
  | cons d rest ih =>
    cases hp : parseDT19 d.fecha with
    | none => simp [saveLoop, hp, rowOf, ih]
    | some fecha => simp [saveLoop, hp, rowOf, DT.isZero, ih]

theorem saveLoop_mem (lastDate : DT) (data : List ForexData) (d : ForexData)
    (f : DT) (hd : d ∈ data) (hp : parseDT19 d.fecha = some f)
    (hq : (lastDate.isZero || lastDate.before f) = true) :
    mkRow f d ∈ (saveLoop lastDate data).1 := by
  rw [saveLoop_fst_eq, List.mem_filterMap]
  refine ⟨d, List.mem_filter.mpr ⟨hd, by simp [qualifies, hp, hq]⟩, by simp [rowOf, hp]⟩

theorem legacyLoop_eq (lastDate : DT) (data : List LegacyIn) :
    legacyLoop lastDate data
      = (data.filter (legacyQualifies lastDate)).filterMap legacyRowOf := by
  induction data with
  | nil => rfl
  | cons d rest ih =>
    cases hp : parseDate10 d.date with
    | none =>
      simp [legacyLoop, hp, legacyQualifies, ih]
    | some date =>
      by_cases hz : lastDate.isZero = true
      · simp [legacyLoop, hp, hz, legacyQualifies, legacyRowOf, ih]
      · rw [Bool.not_eq_true] at hz
        by_cases hb : DT.ltProp lastDate date
        · simp [legacyLoop, hp, hz, hb, legacyQualifies, DT.after, DT.before,
            legacyRowOf, ih]
        · simp [legacyLoop, hp, hz, hb, legacyQualifies, DT.after, DT.before,
            legacyRowOf, ih]

theorem legacyLoop_mem (lastDate : DT) (data : List LegacyIn) (d : LegacyIn)
    (g : DT) (hd : d ∈ data) (hp : parseDate10 d.date = some g)
    (hq : (lastDate.isZero || lastDate.before g) = true) :
    mkLegacyRow g d ∈ legacyLoop lastDate data := by
  rw [legacyLoop_eq, List.mem_filterMap]
  refine ⟨d, List.mem_filter.mpr ⟨hd, by simp [legacyQualifies, hp, hq]⟩,
    by simp [legacyRowOf, hp]⟩

theorem insertLoop_eq (details : List ForexDetail) :
    insertLoop details = details.filterMap histRowOf := by
  induction details with
  | nil => rfl
  | cons d rest ih =>
    cases hp : parseDT19 d.fecha with
    | none => simp [insertLoop, hp, histRowOf, ih]
    | some fecha => simp [insertLoop, hp, histRowOf, ih]

theorem insertData_eq_filterMap (data : List HistoricoResponse) :
    insertData data = (data.flatMap (fun day => day.details)).filterMap histRowOf := by
  induction data with
  | nil => rfl
  | cons day rest ih =>
    simp [insertData, insertLoop_eq, List.filterMap_append, ih]

theorem saveLoop_drop_unparsed (lastDate : DT) (d : ForexData)
    (hp : parseDT19 d.fecha = none) (pre post : List ForexData) :
    saveLoop lastDate (pre ++ d :: post) = saveLoop lastDate (pre ++ post) := by
  induction pre with
  | nil => simp only [List.nil_append, saveLoop, hp]
  | cons e rest ih =>
    simp only [List.cons_append]
    unfold saveLoop
    rw [ih]

theorem insertLoop_drop_unparsed (d : ForexDetail)
    (hp : parseDT19 d.fecha = none) (pre post : List ForexDetail) :
    insertLoop (pre ++ d :: post) = insertLoop (pre ++ post) := by
  induction pre with
  | nil => simp only [List.nil_append, insertLoop, hp]
  | cons e rest ih =>
    simp only [List.cons_append]
    unfold insertLoop
    rw [ih]

theorem copyRow_id (r : Row) : copyRow r = r := rfl

/-! Concrete records used by the witnesses below. -/

/-- A current-quotes API record with the given timestamp string and
otherwise representative field values. -/
def sampleQuote (fecha : String) : ForexData :=
  { fecha := fecha
    ticker := "USB$T"
    descripcion := "DOLAR"
    tipoEmision := "F"
    segmento := "Mayorista"
    codigoSegmento := "CAM1"
    plazo := "000"
    codigoPlazo := "CT"
    moneda := "T"
    fechaLiquidacion := "2024-11-18T00:00:00"
    volumenAcumulado := 10
    montoAcumulado := 20
    precioUltimo := 30
    ultimaTasa := 40
    precioCierreAnterior := 50
    precioMinimo := 60
    precioMaximo := 70
    openInterest := 80
    precioCierre := 90
    variacion := 100 }

/-- A history-endpoint detail record with the given timestamp string. -/
def sampleDetail (fecha : String) : ForexDetail :=
  { fecha := fecha
    ticker := "USB$T"
    descripcion := "DOLAR"
    moneda := "T"
    plazo := "000"
    codigoPlazo := "CT"
    segmento := "Minorista"
    codigoSegmento := "CAM2"
    volumen := 11
    monto := 21
    minimo := 31
    maximo := 41
    ultimo := 51
    variacion := 61
    tipoEmision := "F"
    precioCierre := 71
    fechaLiquidacion := "2024-11-18T00:00:00"
    ultimaTasa := 81
    cierreAnterior := 91
    openInterest := 5 }

/-- A legacy dataframe row with the given formatted date string. -/
def sampleLegacy (date : String) : LegacyIn :=
  { date := date
    rueda := "CAM1"
    instrumento := "USB / ART 000 241118"
    currency_out := some "USB"
    currency_in := some "ART"
    settle := some "000"
    settle_date := some "241118"
    monto := 7
    cotizacion := 8
    hora := "15:00:00" }

/-- A destination-table row dated on the given day, with every nullable
column absent. -/
def sampleRow (date : DT) : Row :=
  { date := date
    rueda := none, instrumento := none, currency_out := none, currency_in := none
    settle := none, settle_date := none, monto := none, cotizacion := none
    hora := none, descripcion := none, tipo_emision := none, codigo_segmento := none
    codigo_plazo := none, moneda := none, monto_acumulado := none
    precio_ultimo := none, ultima_tasa := none, precio_cierre_anterior := none
    precio_minimo := none, precio_maximo := none, open_interest := none
    variacion := none }

/-! Claim theorems. -/

/-- C1: for every batch of normalized quotes and every cutoff (read once
before the batch), the incremental load inserts exactly the records whose
parsed date is strictly greater than the cutoff; with no cutoff (zero
last date) every record whose date parses qualifies; and re-running
against an unchanged cutoff inserts zero rows when every record's date is
at or below the cutoff.  The last conjunct states the same contract for
the legacy loader. -/
theorem c1_incremental_load_filter (lastDate : DT) (data : List ForexData)
    (legacy : List LegacyIn) :
    (saveLoop lastDate data).1 = (data.filter (qualifies lastDate)).filterMap rowOf
    ∧ (saveLoop DT.zero data).1 = data.filterMap rowOf
    ∧ (lastDate.isZero = false →
        (∀ d ∈ data, (parseDT19 d.fecha).all (fun f => !lastDate.before f) = true) →
        (saveLoop lastDate data).1 = [])
    ∧ legacyLoop lastDate legacy
        = (legacy.filter (legacyQualifies lastDate)).filterMap legacyRowOf := by
  refine ⟨saveLoop_fst_eq lastDate data, saveLoop_zero_fst data, ?_, legacyLoop_eq lastDate legacy⟩
  intro hz hstale
  rw [saveLoop_fst_eq]
  have hfil : data.filter (qualifies lastDate) = [] := by
    rw [List.filter_eq_nil_iff]
    intro d hd
    have hall := hstale d hd
    cases hp : parseDT19 d.fecha with
    | none => simp [qualifies, hp]
    | some f =>
      rw [hp] at hall
      simp only [Option.all_some, Bool.not_eq_true'] at hall
      simp [qualifies, hp, hz, hall]
  rw [hfil]
  rfl

/-- Witness for C1 at the spec's example: cutoff 2024-11-14, a candidate
dated 2024-11-14 is skipped and one dated 2024-11-15 is inserted; the
no-cutoff case inserts the parseable record. -/
theorem c1_witness :
    (saveLoop ⟨2024, 11, 14, 0, 0, 0⟩
        [sampleQuote "2024-11-14T00:00:00", sampleQuote "2024-11-15T00:00:00"]).1
      = [mkRow ⟨2024, 11, 15, 0, 0, 0⟩ (sampleQuote "2024-11-15T00:00:00")]
    ∧ (saveLoop ⟨2024, 11, 14, 0, 0, 0⟩ [sampleQuote "2024-11-14T00:00:00"]).1 = []
    ∧ (saveLoop DT.zero [sampleQuote "2024-11-14T00:00:00"]).1
      = [mkRow ⟨2024, 11, 14, 0, 0, 0⟩ (sampleQuote "2024-11-14T00:00:00")] := by
  refine ⟨?_, ?_, ?_⟩
  · exact (c1_incremental_load_filter ⟨2024, 11, 14, 0, 0, 0⟩
      [sampleQuote "2024-11-14T00:00:00", sampleQuote "2024-11-15T00:00:00"] []).1.trans
      (by decide)
  · exact (c1_incremental_load_filter ⟨2024, 11, 14, 0, 0, 0⟩
      [sampleQuote "2024-11-14T00:00:00"] []).2.2.1 (by decide) (by decide)
  · exact (c1_incremental_load_filter ⟨2024, 11, 14, 0, 0, 0⟩
      [sampleQuote "2024-11-14T00:00:00"] []).2.1.trans (by decide)

/-- C2: the backfill planner computes the range
`[last stored date + 1 day, today]`; with an absent (zero) last stored
date it computes `from = today`; and with a present last stored date not
before today it returns the "nothing to do" result and the job performs
zero fetch calls. -/
theorem c2_backfill_planner (lastDate today : DT) :
    (lastDate.isZero = false → lastDate.before today = true →
      planBackfill lastDate today = some (addOneDay lastDate, today)
      ∧ backfillFetchCalls lastDate today = 1)
    ∧ (lastDate.isZero = true →
      planBackfill lastDate today = some (today, today))
    ∧ (lastDate.isZero = false → lastDate.before today = false →
      planBackfill lastDate today = none
      ∧ backfillFetchCalls lastDate today = 0) := by
  refine ⟨fun hz hb => ?_, fun hz => ?_, fun hz hb => ?_⟩
  · constructor
    · simp [planBackfill, hz, hb]
    · simp [backfillFetchCalls, planBackfill, hz, hb]
  · simp [planBackfill, hz]
  · constructor
    · simp [planBackfill, hz, hb]
    · simp [backfillFetchCalls, planBackfill, hz, hb]

/-- Witness for C2 at the spec's example: last stored date 2024-11-10
with today 2024-11-13 plans the range [2024-11-11, 2024-11-13]; a last
stored date equal to today performs zero fetch calls. -/
theorem c2_witness :
    planBackfill ⟨2024, 11, 10, 0, 0, 0⟩ ⟨2024, 11, 13, 0, 0, 0⟩
      = some (⟨2024, 11, 11, 0, 0, 0⟩, ⟨2024, 11, 13, 0, 0, 0⟩)
    ∧ backfillFetchCalls ⟨2024, 11, 13, 0, 0, 0⟩ ⟨2024, 11, 13, 0, 0, 0⟩ = 0
    ∧ planBackfill DT.zero ⟨2024, 11, 13, 0, 0, 0⟩
      = some (⟨2024, 11, 13, 0, 0, 0⟩, ⟨2024, 11, 13, 0, 0, 0⟩) := by
  refine ⟨?_, ?_, ?_⟩
  · exact ((c2_backfill_planner ⟨2024, 11, 10, 0, 0, 0⟩ ⟨2024, 11, 13, 0, 0, 0⟩).1
      (by decide) (by decide)).1.trans (by decide)
  · exact ((c2_backfill_planner ⟨2024, 11, 13, 0, 0, 0⟩ ⟨2024, 11, 13, 0, 0, 0⟩).2.2
      (by decide) (by decide)).2
  · exact (c2_backfill_planner DT.zero ⟨2024, 11, 13, 0, 0, 0⟩).2.1 (by decide)

/-- C3: a record whose settlement-date field equals the sentinel
`"0001-01-01T00:00:00"` is stored with an absent settle_date in both the
current-quotes loader and the backfill loader, and the record is still
inserted, subject only to the date-cutoff filter. -/
theorem c3_settle_date_sentinel (lastDate : DT) (data : List ForexData)
    (d : ForexData) (f : DT) (h : ForexDetail) (g : DT) :
    settleDateValOf "0001-01-01T00:00:00" = none
    ∧ (d.fechaLiquidacion = "0001-01-01T00:00:00" → (mkRow f d).settle_date = none)
    ∧ (h.fechaLiquidacion = "0001-01-01T00:00:00" → (mkHistRow g h).settle_date = none)
    ∧ (d.fechaLiquidacion = "0001-01-01T00:00:00" → d ∈ data →
        parseDT19 d.fecha = some f → (lastDate.isZero || lastDate.before f) = true →
        mkRow f d ∈ (saveLoop lastDate data).1) := by
  refine ⟨by decide, fun hs => ?_, fun hs => ?_, fun _ hd hp hq => ?_⟩
  · simp [mkRow, settleDateValOf, hs]
  · simp [mkHistRow, settleDateValOf, hs]
  · exact saveLoop_mem lastDate data d f hd hp hq

/-- Witness for C3: a concrete record carrying the sentinel settlement
date is inserted with an absent settle_date under a zero cutoff. -/
theorem c3_witness :
    (mkRow ⟨2024, 11, 15, 0, 0, 0⟩
        { sampleQuote "2024-11-15T00:00:00" with
            fechaLiquidacion := "0001-01-01T00:00:00" }).settle_date = none
    ∧ mkRow ⟨2024, 11, 15, 0, 0, 0⟩
        { sampleQuote "2024-11-15T00:00:00" with
            fechaLiquidacion := "0001-01-01T00:00:00" }
      ∈ (saveLoop DT.zero
          [{ sampleQuote "2024-11-15T00:00:00" with
              fechaLiquidacion := "0001-01-01T00:00:00" }]).1 := by
  constructor
  · exact (c3_settle_date_sentinel DT.zero []
      { sampleQuote "2024-11-15T00:00:00" with fechaLiquidacion := "0001-01-01T00:00:00" }
      ⟨2024, 11, 15, 0, 0, 0⟩ (sampleDetail "x") DT.zero).2.1 (by decide)
  · exact (c3_settle_date_sentinel DT.zero
      [{ sampleQuote "2024-11-15T00:00:00" with fechaLiquidacion := "0001-01-01T00:00:00" }]
      { sampleQuote "2024-11-15T00:00:00" with fechaLiquidacion := "0001-01-01T00:00:00" }
      ⟨2024, 11, 15, 0, 0, 0⟩ (sampleDetail "x") DT.zero).2.2.2
      (by decide) (by decide) (by decide) (by decide)

/-- C4: a record whose required date field fails to parse is dropped by
both loaders without contributing a row or touching either counter, and
the rest of the batch is processed exactly as if the record were not
there. -/
theorem c4_unparseable_date_dropped (lastDate : DT) (d : ForexData)
    (pre post : List ForexData) (h : ForexDetail)
    (hpre hpost : List ForexDetail) :
    parseDT19 d.fecha = none → parseDT19 h.fecha = none →
    saveLoop lastDate (pre ++ d :: post) = saveLoop lastDate (pre ++ post)
    ∧ insertLoop (hpre ++ h :: hpost) = insertLoop (hpre ++ hpost) := by
  intro hp hq
  exact ⟨saveLoop_drop_unparsed lastDate d hp pre post,
    insertLoop_drop_unparsed h hq hpre hpost⟩

/-- Witness for C4: a record with the unparseable date string
`"garbage"` placed between two parseable records changes neither the
inserted rows nor the counters of either loader. -/
theorem c4_witness :
    saveLoop DT.zero
        [sampleQuote "2024-11-14T00:00:00", sampleQuote "garbage",
          sampleQuote "2024-11-15T00:00:00"]
      = saveLoop DT.zero
        [sampleQuote "2024-11-14T00:00:00", sampleQuote "2024-11-15T00:00:00"]
    ∧ insertLoop [sampleDetail "garbage", sampleDetail "2024-11-15T00:00:00"]
      = insertLoop [sampleDetail "2024-11-15T00:00:00"] := by
  have h := c4_unparseable_date_dropped DT.zero (sampleQuote "garbage")
    [sampleQuote "2024-11-14T00:00:00"] [sampleQuote "2024-11-15T00:00:00"]
    (sampleDetail "garbage") [] [sampleDetail "2024-11-15T00:00:00"]
    (by decide) (by decide)
  exact ⟨h.1, h.2⟩

/-- C5: a parse failure on an optional field (settlement term or
settlement date) yields an absent value for that field only, in the
current-quotes loader and the legacy loader alike, and the record is
still inserted when its date passes the cutoff. -/
theorem c5_optional_field_null (lastDate : DT) (data : List ForexData)
    (d : ForexData) (f : DT) (legacy : List LegacyIn) (l : LegacyIn)
    (g : DT) (s t : String) :
    (atoiOpt d.plazo = none → (mkRow f d).settle = none)
    ∧ (parseDT19 d.fechaLiquidacion = none → (mkRow f d).settle_date = none)
    ∧ (d ∈ data → parseDT19 d.fecha = some f →
        (lastDate.isZero || lastDate.before f) = true →
        mkRow f d ∈ (saveLoop lastDate data).1)
    ∧ (l.settle = some s → atoiOpt s = none → (mkLegacyRow g l).settle = none)
    ∧ (l.settle_date = some t → parseYYMMDD t = none →
        (mkLegacyRow g l).settle_date = none)
    ∧ (l ∈ legacy → parseDate10 l.date = some g →
        (lastDate.isZero || lastDate.before g) = true →
        mkLegacyRow g l ∈ legacyLoop lastDate legacy) := by
  refine ⟨fun ha => ?_, fun hn => ?_, fun hd hp hq => saveLoop_mem lastDate data d f hd hp hq,
    fun hs ha => ?_, fun ht hn => ?_,
    fun hl hp hq => legacyLoop_mem lastDate legacy l g hl hp hq⟩
  · simp only [mkRow, settleValOf]
    split
    · exact ha
    · rfl
  · simp only [mkRow, settleDateValOf]
    split
    · exact hn
    · rfl
  · simp only [mkLegacyRow, legacySettleVal, hs]
    split
    · exact ha
    · rfl
  · simp only [mkLegacyRow, legacySettleDateVal, ht]
    split
    · exact hn
    · rfl

/-- Witness for C5: a record whose settlement term `"0x3"` fails integer
parsing is stored with an absent settle and still inserted; a legacy
record with the same term behaves identically. -/
theorem c5_witness :
    (mkRow ⟨2024, 11, 15, 0, 0, 0⟩
        { sampleQuote "2024-11-15T00:00:00" with plazo := "0x3" }).settle = none
    ∧ mkRow ⟨2024, 11, 15, 0, 0, 0⟩
        { sampleQuote "2024-11-15T00:00:00" with plazo := "0x3" }
      ∈ (saveLoop DT.zero
          [{ sampleQuote "2024-11-15T00:00:00" with plazo := "0x3" }]).1
    ∧ (mkLegacyRow ⟨2024, 11, 15, 0, 0, 0⟩
        { sampleLegacy "2024-11-15" with settle := some "0x3" }).settle = none := by
  refine ⟨?_, ?_, ?_⟩
  · exact (c5_optional_field_null DT.zero []
      { sampleQuote "2024-11-15T00:00:00" with plazo := "0x3" } ⟨2024, 11, 15, 0, 0, 0⟩
      [] (sampleLegacy "2024-11-15") DT.zero "" "").1 (by decide)
  · exact (c5_optional_field_null DT.zero
      [{ sampleQuote "2024-11-15T00:00:00" with plazo := "0x3" }]
      { sampleQuote "2024-11-15T00:00:00" with plazo := "0x3" } ⟨2024, 11, 15, 0, 0, 0⟩
      [] (sampleLegacy "2024-11-15") DT.zero "" "").2.2.1
      (by decide) (by decide) (by decide)
  · exact (c5_optional_field_null DT.zero []
      (sampleQuote "2024-11-15T00:00:00") ⟨2024, 11, 15, 0, 0, 0⟩
      [] { sampleLegacy "2024-11-15" with settle := some "0x3" }
      ⟨2024, 11, 15, 0, 0, 0⟩ "0x3" "").2.2.2.1 (by decide) (by decide)

/-- C8: the instrumento field is the string
`"<currency_out> / <currency_in> <settle-term>"` built from the raw,
unparsed term string, in both loaders, even though the numeric settle
value is derived separately from the same term. -/
theorem c8_instrumento_raw_term (d : ForexData) (f : DT) (h : ForexDetail)
    (g : DT) :
    (mkRow f d).instrumento = some (deriveCurrencyOut d.ticker ++ " / "
      ++ deriveCurrencyIn d.moneda ++ " " ++ d.plazo)
    ∧ (mkRow f d).settle = (if d.plazo ≠ "" then atoiOpt d.plazo else none)
    ∧ (mkHistRow g h).instrumento = some (deriveCurrencyOut h.ticker ++ " / "
      ++ deriveCurrencyIn h.moneda ++ " " ++ h.plazo)
    ∧ (mkHistRow g h).settle = (if h.plazo ≠ "" then atoiOpt h.plazo else none) := by
  refine ⟨?_, rfl, ?_, rfl⟩
  · simp [mkRow, buildInstrumento, String.append_assoc]
  · simp [mkHistRow, buildInstrumento, String.append_assoc]

/-- C10: the backfill loader attempts every detail record whose date
parses, with no per-record comparison against any last stored date: a
detail dated at or below an arbitrary cutoff is inserted all the same. -/
theorem c10_backfill_no_per_record_cutoff (data : List HistoricoResponse)
    (lastDate : DT) (day : HistoricoResponse) (d : ForexDetail) (f : DT) :
    insertData data = (data.flatMap (fun day => day.details)).filterMap histRowOf
    ∧ (day ∈ data → d ∈ day.details → parseDT19 d.fecha = some f →
        lastDate.before f = false →
        mkHistRow f d ∈ insertData data) := by
  refine ⟨insertData_eq_filterMap data, fun hday hd hp _ => ?_⟩
  rw [insertData_eq_filterMap, List.mem_filterMap]
  refine ⟨d, List.mem_flatMap.mpr ⟨day, hday, hd⟩, by simp [histRowOf, hp]⟩

/-- Witness for C10: with last stored date 2024-11-20, a detail dated
2024-11-15 (at or below the cutoff) is still inserted by the backfill
loader. -/
theorem c10_witness :
    mkHistRow ⟨2024, 11, 15, 0, 0, 0⟩ (sampleDetail "2024-11-15T00:00:00")
      ∈ insertData [⟨"2024-11-15", 1, [sampleDetail "2024-11-15T00:00:00"]⟩] :=
  (c10_backfill_no_per_record_cutoff
    [⟨"2024-11-15", 1, [sampleDetail "2024-11-15T00:00:00"]⟩]
    ⟨2024, 11, 20, 0, 0, 0⟩ ⟨"2024-11-15", 1, [sampleDetail "2024-11-15T00:00:00"]⟩
    (sampleDetail "2024-11-15T00:00:00") ⟨2024, 11, 15, 0, 0, 0⟩).2
    (by decide) (by decide) (by decide) (by decide)

/-- C6: the cross-database sync reads exactly the source rows whose date
is strictly greater than the destination's maximum date, in ascending
date order, copies each of the 23 column values unmodified, and — the
empty destination's cutoff being the sentinel 1900-01-01 — gives an
empty destination a full copy whenever every source row is dated after
the sentinel. -/
theorem c6_cross_database_sync (src dst : List Row) :
    (∀ r : Row, copyRow r = r)
    ∧ syncRun src dst = dst ++ selectNewRows src (maxDateOr1900 dst)
    ∧ (selectNewRows src (maxDateOr1900 dst)).Perm
        (src.filter (fun r => (maxDateOr1900 dst).before r.date))
    ∧ List.Sorted rowLe (selectNewRows src (maxDateOr1900 dst))
    ∧ maxDateOr1900 [] = epoch1900
    ∧ ((∀ r ∈ src, epoch1900.before r.date = true) → (syncRun src []).Perm src) := by
  refine ⟨copyRow_id, ?_, ?_, ?_, rfl, ?_⟩
  · unfold syncRun
    rw [List.map_id'' copyRow_id]
  · exact List.perm_insertionSort rowLe _
  · exact List.sorted_insertionSort rowLe _
  · intro hall
    unfold syncRun selectNewRows
    rw [List.map_id'' copyRow_id, List.nil_append]
    have hfil : src.filter (fun r => (maxDateOr1900 ([] : List Row)).before r.date)
        = src := by
      rw [List.filter_eq_self]
      intro a ha
      exact hall a ha
    rw [hfil]
    exact List.perm_insertionSort rowLe src

/-- Witness for C6: a single source row dated 2024-11-15 is copied in
full into an empty destination. -/
theorem c6_witness :
    (syncRun [sampleRow ⟨2024, 11, 15, 0, 0, 0⟩] []).Perm
        [sampleRow ⟨2024, 11, 15, 0, 0, 0⟩]
    ∧ copyRow (sampleRow ⟨2024, 11, 15, 0, 0, 0⟩)
        = sampleRow ⟨2024, 11, 15, 0, 0, 0⟩ :=
  ⟨(c6_cross_database_sync [sampleRow ⟨2024, 11, 15, 0, 0, 0⟩] []).2.2.2.2.2
      (by decide),
   (c6_cross_database_sync [sampleRow ⟨2024, 11, 15, 0, 0, 0⟩] []).1
      (sampleRow ⟨2024, 11, 15, 0, 0, 0⟩)⟩

/-- C7: stripping behaviour of the currency_out derivation — a trailing
`"$T"` is removed, and a ticker without that suffix is returned
unchanged. -/
theorem c7_derive_currency_out (T : String) :
    deriveCurrencyOut (T ++ "$T") = T
    ∧ ("$T".data.isSuffixOf T.data = false → deriveCurrencyOut T = T) := by
  constructor
  · have hsuf : "$T".data.isSuffixOf (T ++ "$T").data = true := by
      rw [List.isSuffixOf_iff_suffix, String.data_append]
      exact List.suffix_append T.data "$T".data
    unfold deriveCurrencyOut strTrimSuffix
    rw [if_pos hsuf, String.data_append]
    have h2 : "$T".data = ['$', 'T'] := rfl
    rw [h2]
    have hlen : (T.data ++ ['$', 'T']).length - (['$', 'T'] : List Char).length
        = T.data.length := by simp
    rw [hlen, List.take_left]
  · intro h
    unfold deriveCurrencyOut strTrimSuffix
    rw [if_neg (by simp [h])]

/-- Witness for C7: `"USD$T"` loses its suffix and `"USMEP"` is
unchanged. -/
theorem c7_witness :
    deriveCurrencyOut ("USD" ++ "$T") = "USD"
    ∧ deriveCurrencyOut "USMEP" = "USMEP" :=
  ⟨(c7_derive_currency_out "USD").1, (c7_derive_currency_out "USMEP").2 (by decide)⟩

/-- C9 (counterexample): the claim that every opened connection is
released on every exit path, fatal-error paths included, fails on the
sync job: when the cloud connection attempt fails after the local
connection opened, `log.Fatalf` calls `os.Exit` and the deferred close of
the local connection never runs. -/
theorem c9_counterexample :
    (syncMainTrace true false true true true).events = [ConnEv.openLocal]
    ∧ allReleased (syncMainTrace true false true true true).events = false := by
  decide

/-- C9 (amended): every opened database connection is released on every
non-fatal exit path — including the loader's early return on a prepare
failure, where the deferred close still runs — but an exit through
`log.Fatalf` skips the deferred closes. -/
theorem c9_release_on_nonfatal_paths (a b c d e p q : Bool) :
    ((syncMainTrace a b c d e).fatal = false →
      allReleased (syncMainTrace a b c d e).events = true)
    ∧ ((saveToDatabaseTrace p q).2 = false →
      saveReleased (saveToDatabaseTrace p q).1 = true) := by
  constructor
  · revert a b c d e
    decide
  · revert p q
    decide

/-- Witness for the amended C9: the all-successful sync run and the
early-return loader run both release every opened connection. -/
theorem c9_witness :
    (syncMainTrace true true true true true).fatal = false
    ∧ allReleased (syncMainTrace true true true true true).events = true
    ∧ (saveToDatabaseTrace true false).2 = false
    ∧ saveReleased (saveToDatabaseTrace true false).1 = true :=
  ⟨by decide,
   (c9_release_on_nonfatal_paths true true true true true true false).1 (by decide),
   by decide,
   (c9_release_on_nonfatal_paths true true true true true true false).2 (by decide)⟩

end Maescraper
